import Mathlib

/-
Verification of the transaction/balance core of the personal finance tracker
backend (src/backend/server.js) over the relational schema in src/backend/db.sql.

The embedding models the database state as lists of records, and each HTTP
handler as a function from a request and a state to an
`Except ApiError (state, result)` value, mirroring the SQL statements the
handler issues in order.  Foreign-key constraints from db.sql that a statement
can violate are modelled as `storageError` outcomes (the pg driver throws and
the handler answers 500).

PostgreSQL NUMERIC columns hold exact decimal values.  They are modelled by
the exact rational type `Rq` below: an integer numerator over a positive
natural denominator, kept unnormalized so that every operation is structural
arithmetic on integers.  `Rq.toRat` interprets a value in ℚ, and `Rq.beq`
(the `==` of `Rq`) is value equality by cross multiplication, matching SQL
comparison of NUMERIC values.

The JavaScript layer performs three arithmetic steps on amounts outside SQL:
the update handler computes `updatedTransaction.amount - oldTransaction.amount`
(server.js line 431) and the delete handler computes `-transaction.amount`
(line 459); node-postgres returns NUMERIC columns as strings, so these coerce
the strings to IEEE-754 doubles first.  The ledger machine below models the
balance mutations with exact rationals; the double pipeline is modelled
separately by `jsNumber`, `jsToDecimal` and `updateDiffJs` further down and is
used to settle the numerical claims.
-/

set_option maxRecDepth 16000

/-- Exact rational value of a NUMERIC column: numerator over a positive
denominator, without gcd normalization.  Equality of representations is
structural; equality of the represented values is `Rq.beq`. -/
structure Rq where
  num : ℤ
  den : ℕ+
  deriving DecidableEq

instance (n : ℕ) : OfNat Rq n := ⟨⟨(n : ℤ), 1⟩⟩

/-- The rational value an `Rq` represents. -/
def Rq.toRat (x : Rq) : ℚ := (x.num : ℚ) / ((x.den : ℕ) : ℚ)

/-- Exact addition: a/b + c/d = (ad + cb)/(bd). -/
def Rq.add (x y : Rq) : Rq :=
  ⟨x.num * ((y.den : ℕ) : ℤ) + y.num * ((x.den : ℕ) : ℤ), x.den * y.den⟩

/-- Exact subtraction. -/
def Rq.sub (x y : Rq) : Rq :=
  ⟨x.num * ((y.den : ℕ) : ℤ) - y.num * ((x.den : ℕ) : ℤ), x.den * y.den⟩

/-- Exact negation. -/
def Rq.neg (x : Rq) : Rq := ⟨-x.num, x.den⟩

/-- Exact multiplication. -/
def Rq.mul (x y : Rq) : Rq := ⟨x.num * y.num, x.den * y.den⟩

/-- Magnitude. -/
def Rq.qabs (x : Rq) : Rq := ⟨(x.num.natAbs : ℤ), x.den⟩

/-- Value equality by cross multiplication (the denominators are positive). -/
def Rq.beq (x y : Rq) : Bool :=
  x.num * ((y.den : ℕ) : ℤ) == y.num * ((x.den : ℕ) : ℤ)

/-- Value order by cross multiplication. -/
def Rq.ble (x y : Rq) : Bool :=
  decide (x.num * ((y.den : ℕ) : ℤ) ≤ y.num * ((x.den : ℕ) : ℤ))

/-- Strict value order by cross multiplication. -/
def Rq.blt (x y : Rq) : Bool :=
  decide (x.num * ((y.den : ℕ) : ℤ) < y.num * ((x.den : ℕ) : ℤ))

/-- Round to the nearest integer, half away from zero upward:
round(a/b) = floor(a/b + 1/2) = fdiv(2a + b, 2b). -/
def Rq.round (x : Rq) : ℤ :=
  Int.fdiv (2 * x.num + ((x.den : ℕ) : ℤ)) (2 * ((x.den : ℕ) : ℤ))

instance : Add Rq := ⟨Rq.add⟩
instance : Sub Rq := ⟨Rq.sub⟩
instance : Neg Rq := ⟨Rq.neg⟩
instance : Mul Rq := ⟨Rq.mul⟩
instance : BEq Rq := ⟨Rq.beq⟩

/-- Integer powers of a positive natural base, as an exact rational. -/
def qpow (b : ℕ+) (e : ℤ) : Rq :=
  match e with
  | .ofNat n => ⟨((b : ℕ) : ℤ) ^ n, 1⟩
  | .negSucc n => ⟨1, b ^ (n + 1)⟩

/-- Row of the accounts table (db.sql lines 25-37). -/
structure Account where
  id : String
  user_id : String
  account_name : String
  account_type : String
  initial_balance : Rq
  current_balance : Rq
  currency : String
  deriving DecidableEq

/-- Row of the transactions table (db.sql lines 52-68). -/
structure Txn where
  id : String
  user_id : String
  account_id : String
  date : String
  amount : Rq
  transaction_type : String
  description : String
  category_id : Option String
  recurrence : String
  deriving DecidableEq

/-- Row of the keyword_rules table (db.sql lines 127-135); global, not
user-scoped. -/
structure KeywordRule where
  keyword : String
  category_id : String
  deriving DecidableEq

/-- Database state: the tables the transaction lifecycle touches.  Categories
are kept as their ids only (the transactions table has a foreign key on
category_id).  The users table is not modelled: callers are authenticated
user ids. -/
structure DBState where
  accounts : List Account
  transactions : List Txn
  categories : List String
  keyword_rules : List KeywordRule
  deriving DecidableEq

/-- Error taxonomy of the handlers: 400 Missing required fields,
404 not found, 500 from a failing SQL statement. -/
inductive ApiError where
  | validationError
  | notFound
  | storageError
  deriving DecidableEq

/-- Body of POST /api/transactions (server.js line 328).  JSON-absent and
JSON-null fields are both modelled as `none`; amounts carry the exact
rational value of the JSON number. -/
structure CreateTxnReq where
  account_id : Option String
  date : Option String
  amount : Option Rq
  transaction_type : Option String
  description : Option String
  category_id : Option String
  recurrence : Option String
  deriving DecidableEq

/-- Body of PUT /api/transactions/:transaction_id (server.js line 387). -/
structure UpdateTxnReq where
  account_id : Option String
  date : Option String
  amount : Option Rq
  transaction_type : Option String
  description : Option String
  category_id : Option String
  recurrence : Option String
  deriving DecidableEq

/-- Body of PUT /api/accounts/:account_id (server.js line 245). -/
structure UpdateAccountReq where
  account_name : Option String
  account_type : Option String
  initial_balance : Option Rq
  currency : Option String
  deriving DecidableEq

/-- JavaScript falsiness of an optional string: undefined, null and the empty
string are falsy. -/
def jsFalsy : Option String → Bool
  | none => true
  | some s => s.isEmpty

/-- The JavaScript expression `x || null` for an optional string. -/
def jsOrNull (o : Option String) : Option String :=
  if jsFalsy o then none else o

/-- ASCII lower-casing of one character, as String.prototype.toLowerCase acts
on the ASCII range used by the keyword rules. -/
def jsLowerChar (c : Char) : Char :=
  if 'A' ≤ c ∧ c ≤ 'Z' then Char.ofNat (c.toNat + 32) else c

/-- String lower-casing (JavaScript toLowerCase on ASCII data). -/
def jsLower (s : String) : String :=
  ⟨s.data.map jsLowerChar⟩

/-- JavaScript String.prototype.includes: the needle occurs as a contiguous
substring of the haystack. -/
def jsIncludes (hay needle : String) : Bool :=
  hay.data.tails.any (fun t => needle.data.isPrefixOf t)

/-- One iteration test of the auto-categorization loop (server.js line 338):
`description.toLowerCase().includes(row.keyword.toLowerCase())`. -/
def kwMatches (description : String) (r : KeywordRule) : Bool :=
  jsIncludes (jsLower description) (jsLower r.keyword)

/-- The auto-categorization loop over keyword_rules rows in iteration order
(server.js lines 336-342): the first matching rule wins via `break`; no match
leaves the category as it was. -/
def autoCategorize (description : String) : List KeywordRule → Option String
  | [] => none
  | r :: rs =>
    if kwMatches description r then some r.category_id
    else autoCategorize description rs

/-- The category value stored by POST /api/transactions (server.js lines
334-343 and 351): the loop runs only when `!category_id && description`, and
the stored value is `category_id || null`. -/
def createdCategory (reqCat reqDesc : Option String) (rules : List KeywordRule) :
    Option String :=
  jsOrNull
    (if jsFalsy reqCat && !jsFalsy reqDesc then
      (match autoCategorize (reqDesc.getD "") rules with
      | some c => some c
      | none => reqCat)
    else reqCat)

/-- current_balance of the first account with the given id, if any. -/
def accountBalance (db : DBState) (aid : String) : Option Rq :=
  (db.accounts.find? (fun a => a.id == aid)).map (fun a => a.current_balance)

/-- initial_balance of the first account with the given id, if any. -/
def accountInitial (db : DBState) (aid : String) : Option Rq :=
  (db.accounts.find? (fun a => a.id == aid)).map (fun a => a.initial_balance)

/-- Signed sum of the amounts of all transactions referencing an account. -/
def txnSum (db : DBState) (aid : String) : Rq :=
  ((db.transactions.filter (fun t => t.account_id == aid)).map
    (fun t => t.amount)).foldr (· + ·) 0

/-- The ledger invariant of spec section 8: every account satisfies
current_balance = initial_balance + sum of its transactions (as NUMERIC
values, compared by `Rq.beq`). -/
def balanceOk (db : DBState) : Bool :=
  db.accounts.all (fun a => a.current_balance == a.initial_balance + txnSum db a.id)

/-- The statement `UPDATE accounts SET current_balance = current_balance + $1
WHERE id = $3 AND user_id = $4` (server.js lines 355-359, 423-427, 461-464).
A row owned by a different user is simply not matched; that is not an error. -/
def addToBalance (aid uid : String) (delta : Rq) (accounts : List Account) :
    List Account :=
  accounts.map (fun a =>
    if a.id == aid && a.user_id == uid then
      { a with current_balance := a.current_balance + delta }
    else a)

/-- The statement `UPDATE accounts SET current_balance = current_balance - $1
WHERE id = $3 AND user_id = $4` (server.js lines 416-420). -/
def subFromBalance (aid uid : String) (delta : Rq) (accounts : List Account) :
    List Account :=
  accounts.map (fun a =>
    if a.id == aid && a.user_id == uid then
      { a with current_balance := a.current_balance - delta }
    else a)

/-- POST /api/transactions (server.js lines 327-367): validation, the
auto-categorization loop, the INSERT (which fails on a foreign-key violation
when the account id or the stored category id does not exist), then the
balance UPDATE scoped to the calling user.  The source wraps the two
statements in no SQL transaction, so the INSERT persists even when the UPDATE
matches no row. -/
def createTransaction (uid newId : String) (req : CreateTxnReq) (db : DBState) :
    Except ApiError (DBState × Txn) :=
  if jsFalsy req.account_id || jsFalsy req.date || req.amount.isNone
      || jsFalsy req.transaction_type then
    .error .validationError
  else
    let account_id := req.account_id.getD ""
    let amount := req.amount.getD 0
    let storedCat := createdCategory req.category_id req.description db.keyword_rules
    let tx : Txn :=
      { id := newId
        user_id := uid
        account_id := account_id
        date := req.date.getD ""
        amount := amount
        transaction_type := req.transaction_type.getD ""
        description := req.description.getD ""
        category_id := storedCat
        recurrence := if jsFalsy req.recurrence then "none" else req.recurrence.getD "none" }
    if !db.accounts.any (fun a => a.id == account_id) then .error .storageError
    else if (match storedCat with
             | some c => !db.categories.contains c
             | none => false) then .error .storageError
    else
      let db1 := { db with transactions := db.transactions ++ [tx] }
      let db2 := { db1 with accounts := addToBalance account_id uid amount db1.accounts }
      .ok (db2, tx)

/-- The COALESCE-style partial update of a transactions row (server.js lines
396-408): absent request fields retain the previous values. -/
def coalesceTxn (req : UpdateTxnReq) (t : Txn) : Txn :=
  { t with
    account_id := req.account_id.getD t.account_id
    date := req.date.getD t.date
    amount := req.amount.getD t.amount
    transaction_type := req.transaction_type.getD t.transaction_type
    description := req.description.getD t.description
    category_id := (match req.category_id with
      | some c => some c
      | none => t.category_id)
    recurrence := req.recurrence.getD t.recurrence }

/-- PUT /api/transactions/:transaction_id (server.js lines 385-445): read the
prior row (404 when absent or not owned), COALESCE-update it (failing on a
foreign-key violation before any balance changes), then either reverse the old
amount on the old account and add the new amount on the new account (when the
request names a different account, line 414) or add the difference of the
amounts on the single account.  The difference is computed in JavaScript
doubles in the source (line 431); here it is the exact rational difference,
and the double semantics are modelled by `updateDiffJs` below. -/
def updateTransaction (uid tid : String) (req : UpdateTxnReq) (db : DBState) :
    Except ApiError (DBState × Txn) :=
  match db.transactions.find? (fun t => t.id == tid && t.user_id == uid) with
  | none => .error .notFound
  | some oldTx =>
    let newTx := coalesceTxn req oldTx
    if !db.accounts.any (fun a => a.id == newTx.account_id) then .error .storageError
    else if (match newTx.category_id with
             | some c => !db.categories.contains c
             | none => false) then .error .storageError
    else
      let db1 := { db with
        transactions := db.transactions.map
          (fun (t : Txn) => if t.id == tid && t.user_id == uid then coalesceTxn req t else t) }
      let changed := (match req.account_id with
        | none => false
        | some a => !a.isEmpty && a != oldTx.account_id)
      if changed then
        let db2 := { db1 with
          accounts := subFromBalance oldTx.account_id uid oldTx.amount db1.accounts }
        let db3 := { db2 with
          accounts := addToBalance (req.account_id.getD "") uid newTx.amount db2.accounts }
        .ok (db3, newTx)
      else
        let diff := newTx.amount - oldTx.amount
        let db2 := { db1 with
          accounts := addToBalance oldTx.account_id uid diff db1.accounts }
        .ok (db2, newTx)

/-- DELETE /api/transactions/:transaction_id (server.js lines 448-471): read
the row (404 when absent or not owned), DELETE it, then add the reversal
`-transaction.amount` to the account, scoped to the calling user.  The
negation is a JavaScript double negation of the NUMERIC string in the source
(line 459); it is exact here. -/
def deleteTransaction (uid tid : String) (db : DBState) : Except ApiError DBState :=
  match db.transactions.find? (fun t => t.id == tid && t.user_id == uid) with
  | none => .error .notFound
  | some tx =>
    let db1 := { db with
      transactions := db.transactions.filter (fun (t : Txn) => !(t.id == tid && t.user_id == uid)) }
    let db2 := { db1 with
      accounts := addToBalance tx.account_id uid (-tx.amount) db1.accounts }
    .ok db2

/-- The COALESCE update of an accounts row by PUT /api/accounts/:account_id
(server.js lines 248-257): name, type, initial_balance and currency are
COALESCEd; current_balance is not in the SET list. -/
def coalesceAccount (req : UpdateAccountReq) (b : Account) : Account :=
  { b with
    account_name := req.account_name.getD b.account_name
    account_type := req.account_type.getD b.account_type
    initial_balance := req.initial_balance.getD b.initial_balance
    currency := req.currency.getD b.currency }

/-- PUT /api/accounts/:account_id (server.js lines 243-267): 404 when no row
matches id and caller, otherwise the COALESCE update. -/
def updateAccountOp (uid aid : String) (req : UpdateAccountReq) (db : DBState) :
    Except ApiError (DBState × Account) :=
  match db.accounts.find? (fun a => a.id == aid && a.user_id == uid) with
  | none => .error .notFound
  | some a =>
    let db2 := { db with
      accounts := db.accounts.map
        (fun (b : Account) => if b.id == aid && b.user_id == uid then coalesceAccount req b else b) }
    .ok (db2, coalesceAccount req a)

/-
Model of the JavaScript IEEE-754 double pipeline used on amounts.  node-postgres
returns NUMERIC columns as decimal strings; the JavaScript coercions round
those to the nearest double (binary64: 53-bit significand), arithmetic rounds
its exact result to the nearest double, and passing a JavaScript number back as
a query parameter serializes it with the ECMAScript Number-to-String algorithm,
the shortest decimal that converts back to the same double.  Normal finite
magnitudes in (2^-60, 2^60) suffice for the amounts considered; ties round
half-up here where IEEE rounds half-to-even, and no value used below is a tie.
-/

/-- Floor logarithm by linear search: the exponent e in [lo, lo+n) with
b^e ≤ q < b^(e+1), for positive q in range. -/
def floorLogIn (b : ℕ+) (q : Rq) (lo : ℤ) (n : ℕ) : ℤ :=
  (((List.range n).map (fun i => lo + (i : ℤ))).find?
    (fun e => (qpow b e).ble q && q.blt (qpow b (e + 1)))).getD 0

/-- Floor base-2 logarithm of the magnitude. -/
def floorLog2 (q : Rq) : ℤ := floorLogIn 2 q.qabs (-60) 121

/-- Floor base-10 logarithm of the magnitude. -/
def floorLog10 (q : Rq) : ℤ := floorLogIn 10 q.qabs (-30) 61

/-- The IEEE-754 binary64 value nearest a rational: round to the nearest
multiple of the quantum 2^(e-52) where 2^e ≤ magnitude < 2^(e+1). -/
def jsNumber (q : Rq) : Rq :=
  if q.num = 0 then 0
  else
    let e := floorLog2 q - 52
    Rq.mul ⟨Rq.round (Rq.mul q (qpow 2 (-e))), 1⟩ (qpow 2 e)

/-- The decimal with p significant digits nearest a rational. -/
def roundSigDigits (p : ℕ) (q : Rq) : Rq :=
  if q.num = 0 then 0
  else
    let e := floorLog10 q - (p : ℤ) + 1
    Rq.mul ⟨Rq.round (Rq.mul q (qpow 10 (-e))), 1⟩ (qpow 10 e)

/-- The ECMAScript string representation of a double, as the exact rational it
denotes: the shortest decimal (1 to 17 significant digits) that converts back
to the same double. -/
def jsToDecimal (q : Rq) : Rq :=
  (((List.range 17).map (fun i => roundSigDigits (i + 1) q)).find?
    (fun c => jsNumber c == q)).getD q

/-- The NUMERIC value stored when a JSON number amount x reaches the database:
parsed as a double, then serialized by the driver as its ECMAScript string. -/
def reqToStored (x : Rq) : Rq := jsToDecimal (jsNumber x)

/-- The NUMERIC value added to current_balance by the same-account branch of
PUT /api/transactions/:transaction_id (server.js line 431): both stored
NUMERIC strings are coerced to doubles, subtracted in double arithmetic
(IEEE subtraction rounds the exact difference), and the resulting number is
serialized back as a parameter. -/
def updateDiffJs (sOld sNew : Rq) : Rq :=
  jsToDecimal (jsNumber (jsNumber sNew - jsNumber sOld))

/-
Concrete states and requests used by the closed theorems below.
-/

/-- Account of user alice. -/
def acctAlice : Account :=
  { id := "acct_a", user_id := "alice", account_name := "Checking"
    account_type := "checking", initial_balance := 100, current_balance := 100
    currency := "USD" }

/-- Account of user bob. -/
def acctBob : Account :=
  { id := "acct_b", user_id := "bob", account_name := "Checking"
    account_type := "checking", initial_balance := 50, current_balance := 50
    currency := "USD" }

/-- A state with two users' accounts and no transactions. -/
def db0 : DBState :=
  { accounts := [acctAlice, acctBob], transactions := []
    categories := ["cat1"], keyword_rules := [] }

/-- A create request by alice naming bob's existing account. -/
def reqOnBob : CreateTxnReq :=
  { account_id := some "acct_b", date := some "2024-01-01", amount := some 25
    transaction_type := some "expense", description := some ""
    category_id := none, recurrence := none }

/-- A create request naming an account id that does not exist. -/
def reqAbsent : CreateTxnReq :=
  { account_id := some "acct_x", date := some "2024-01-01", amount := some 25
    transaction_type := some "expense", description := some ""
    category_id := none, recurrence := none }

/-- Account used by the account-edit claims. -/
def accC6 : Account :=
  { id := "acct_a", user_id := "alice", account_name := "Checking"
    account_type := "checking", initial_balance := 1500, current_balance := 1200
    currency := "USD" }

/-- State for the account-edit claims. -/
def dbC6 : DBState :=
  { accounts := [accC6], transactions := [], categories := [], keyword_rules := [] }

/-- Account-edit request supplying a new initial_balance. -/
def reqInit999 : UpdateAccountReq :=
  { account_name := none, account_type := none, initial_balance := some 999
    currency := none }

/-- Account-edit request renaming the account only. -/
def reqRename : UpdateAccountReq :=
  { account_name := some "Renamed", account_type := none, initial_balance := none
    currency := none }

/-- The account after the rename request. -/
def accC6r : Account :=
  { id := "acct_a", user_id := "alice", account_name := "Renamed"
    account_type := "checking", initial_balance := 1500, current_balance := 1200
    currency := "USD" }

/-- The state after the rename request. -/
def dbC6r : DBState :=
  { accounts := [accC6r], transactions := [], categories := [], keyword_rules := [] }

/-- State with one rule and one category, for the categorization claims. -/
def dbW : DBState :=
  { accounts := [{ id := "a1", user_id := "alice", account_name := "Main"
                   account_type := "checking", initial_balance := 0
                   current_balance := 0, currency := "USD" }]
    transactions := [], categories := ["cat9"]
    keyword_rules := [⟨"Uber", "cat9"⟩] }

/-- Create request with an explicit category and a rule-matching description. -/
def reqCat9 : CreateTxnReq :=
  { account_id := some "a1", date := some "2024-01-01", amount := some 5
    transaction_type := some "expense", description := some "Uber ride"
    category_id := some "cat9", recurrence := none }

/-- The transaction the explicit-category request creates. -/
def txCat9 : Txn :=
  { id := "t9", user_id := "alice", account_id := "a1", date := "2024-01-01"
    amount := 5, transaction_type := "expense", description := "Uber ride"
    category_id := some "cat9", recurrence := "none" }

/-- The state after the explicit-category create. -/
def dbWCat9 : DBState :=
  { accounts := [{ id := "a1", user_id := "alice", account_name := "Main"
                   account_type := "checking", initial_balance := 0
                   current_balance := 5, currency := "USD" }]
    transactions := [txCat9], categories := ["cat9"]
    keyword_rules := [⟨"Uber", "cat9"⟩] }

/-- Create request without a category whose description matches no rule. -/
def reqNoCat : CreateTxnReq :=
  { account_id := some "a1", date := some "2024-01-01", amount := some 5
    transaction_type := some "expense", description := some "Dinner with friends"
    category_id := none, recurrence := none }

/-- The transaction the no-category request creates. -/
def txNoCat : Txn :=
  { id := "t8", user_id := "alice", account_id := "a1", date := "2024-01-01"
    amount := 5, transaction_type := "expense", description := "Dinner with friends"
    category_id := none, recurrence := "none" }

/-- The state after the no-category create. -/
def dbWNoCat : DBState :=
  { accounts := [{ id := "a1", user_id := "alice", account_name := "Main"
                   account_type := "checking", initial_balance := 0
                   current_balance := 5, currency := "USD" }]
    transactions := [txNoCat], categories := ["cat9"]
    keyword_rules := [⟨"Uber", "cat9"⟩] }

/-- Account for the delete claim, holding one -200 expense. -/
def accC9 : Account :=
  { id := "acct_d", user_id := "alice", account_name := "Checking"
    account_type := "checking", initial_balance := 1000, current_balance := 800
    currency := "USD" }

/-- A -200 transaction on that account. -/
def txC9 : Txn :=
  { id := "t1", user_id := "alice", account_id := "acct_d", date := "2024-01-02"
    amount := -200, transaction_type := "expense", description := "Gym"
    category_id := none, recurrence := "none" }

/-- State for the delete claim. -/
def dbC9 : DBState :=
  { accounts := [accC9], transactions := [txC9], categories := [], keyword_rules := [] }

/-- A categorized transaction for the category-preservation claim. -/
def txC10 : Txn :=
  { id := "t1", user_id := "alice", account_id := "a1", date := "2024-01-01"
    amount := -100, transaction_type := "expense", description := "x"
    category_id := some "cat1", recurrence := "none" }

/-- State for the category-preservation claim. -/
def dbC10 : DBState :=
  { accounts := [{ id := "a1", user_id := "alice", account_name := "Main"
                   account_type := "checking", initial_balance := 0
                   current_balance := -100, currency := "USD" }]
    transactions := [txC10], categories := ["cat1"], keyword_rules := [] }

/-- Update request supplying only a new date (category absent). -/
def reqDateOnly : UpdateTxnReq :=
  { account_id := none, date := some "2024-02-02", amount := none
    transaction_type := none, description := none, category_id := none
    recurrence := none }

/-- The transaction after the date-only update. -/
def txC10b : Txn :=
  { id := "t1", user_id := "alice", account_id := "a1", date := "2024-02-02"
    amount := -100, transaction_type := "expense", description := "x"
    category_id := some "cat1", recurrence := "none" }

/-- The state after the date-only update. -/
def dbC10b : DBState :=
  { accounts := [{ id := "a1", user_id := "alice", account_name := "Main"
                   account_type := "checking", initial_balance := 0
                   current_balance := -100, currency := "USD" }]
    transactions := [txC10b], categories := ["cat1"], keyword_rules := [] }

/-
Theorems.
-/

/-- The `==` of `Rq` decides equality of the represented rational values. -/
theorem Rq.beq_iff_toRat (x y : Rq) : (x == y) = true ↔ x.toRat = y.toRat := by
  show Rq.beq x y = true ↔ x.toRat = y.toRat
  unfold Rq.beq Rq.toRat
  rw [beq_iff_eq, div_eq_div_iff]
  · constructor
    · intro h; exact_mod_cast congrArg (fun z : ℤ => (z : ℚ)) h
    · intro h; exact_mod_cast h
  · exact_mod_cast x.den.ne_zero
  · exact_mod_cast y.den.ne_zero

/-- A predicate-preserving pointwise map commutes with find?. -/
theorem find?_map_pred_inv {α : Type} (p : α → Bool) (f : α → α)
    (hf : ∀ a, p (f a) = p a) :
    ∀ l : List α, (l.map f).find? p = (l.find? p).map f
  | [] => rfl
  | a :: l => by
    cases h : p a with
    | true => simp [List.find?, hf, h]
    | false => simpa [List.find?, hf, h] using find?_map_pred_inv p f hf l

/-- find? over a list filtered by the negated predicate yields nothing. -/
theorem find?_filter_neg {α : Type} (p : α → Bool) (l : List α) :
    (l.filter (fun a => !(p a))).find? p = none := by
  rw [List.find?_eq_none]
  intro a ha
  have := (List.mem_filter.mp ha).2
  simp_all

/-- Mapping a function that preserves the predicate and a projection changes
neither the found element's projection. -/
theorem map_find?_congr {α β : Type} (p : α → Bool) (proj : α → β) (g : α → α)
    (hg : ∀ a, p (g a) = p a ∧ proj (g a) = proj a) (l : List α) :
    ((l.map g).find? p).map proj = (l.find? p).map proj := by
  rw [find?_map_pred_inv p g (fun a => (hg a).1) l]
  cases h : l.find? p with
  | none => rfl
  | some b => exact congrArg some (hg b).2

/-- Projecting the element found after a predicate-preserving map. -/
theorem find?_map_apply {α β : Type} (p : α → Bool) (proj : α → β) (g : α → α)
    (hg : ∀ a, p (g a) = p a) (l : List α) (b : α) (hb : l.find? p = some b) :
    ((l.map g).find? p).map proj = some (proj (g b)) := by
  rw [find?_map_pred_inv p g hg l, hb]
  rfl

/-- Claim C1: the ledger invariant current_balance = initial_balance + sum of
transaction amounts is claimed to hold after every completed operation.  It is
violated at a concrete completed operation: alice creates a transaction naming
bob's existing account; the insert persists but the caller-scoped balance
update matches no row, so the invariant fails for bob's account. -/
theorem claim_C1_invariant_violation :
    balanceOk db0 = true ∧
    (createTransaction "alice" "tx_new" reqOnBob db0).toOption.map
      (fun p => balanceOk p.1) = some false := by
  exact ⟨by decide, by decide⟩

/-- Claim C2: transaction writes are claimed atomic across the record mutation
and the balance mutation.  At the same concrete input the inserted record
persists (naming bob's account) while bob's balance is unchanged: a visible
partial-failure state. -/
theorem claim_C2_atomicity_violation :
    accountBalance db0 "acct_b" = some 50 ∧
    (createTransaction "alice" "tx_new" reqOnBob db0).toOption.map
      (fun p => (p.1.transactions.any
                  (fun t => t.id == "tx_new" && t.account_id == "acct_b"),
                 accountBalance p.1 "acct_b")) = some (true, some 50) := by
  exact ⟨by decide, by decide⟩

/-- Claim C3: CreateTransaction is claimed to fail NotFound when the account is
absent or not owned.  The code has no such check: with a not-owned existing
account the create completes successfully and persists, and with an absent
account the insert fails on the foreign key, surfacing a storage error, not
NotFound. -/
theorem claim_C3_notfound_violation :
    (createTransaction "alice" "tx_new" reqOnBob db0).toOption.isSome = true ∧
    createTransaction "alice" "tx_new" reqAbsent db0 = .error ApiError.storageError := by
  exact ⟨by decide, by rfl⟩

/-- Claim C4: the same-account update is claimed to adjust the balance by
exactly new_amount - old_amount.  The source computes the difference in
JavaScript doubles: updating a stored amount of 0.1 to 0.3 adjusts the balance
by 0.19999999999999998, not by the exact 0.2. -/
theorem claim_C4_diff_not_exact :
    updateDiffJs ⟨1, 10⟩ ⟨3, 10⟩ = ⟨19999999999999998, 100000000000000000⟩ ∧
    (updateDiffJs ⟨1, 10⟩ ⟨3, 10⟩).toRat ≠ (3 : ℚ) / 10 - 1 / 10 := by
  have h : updateDiffJs ⟨1, 10⟩ ⟨3, 10⟩
      = (⟨19999999999999998, 100000000000000000⟩ : Rq) := by decide
  refine ⟨h, ?_⟩
  rw [h]
  norm_num [Rq.toRat]

/-- Claim C5: balance arithmetic is claimed exact decimal end to end.  Creating
a transaction of 0.1 and then updating it to 0.3 leaves the stored amount
exactly 0.3, but the balance accumulates 0.1 + 0.19999999999999998 (the double
difference): floating-point drift against the exact rational sum 0.3. -/
theorem claim_C5_drift :
    (reqToStored ⟨1, 10⟩).toRat = 1 / 10 ∧
    (reqToStored ⟨3, 10⟩).toRat = 3 / 10 ∧
    (reqToStored ⟨1, 10⟩ + updateDiffJs ⟨1, 10⟩ ⟨3, 10⟩).toRat ≠ 3 / 10 := by
  have h1 : reqToStored ⟨1, 10⟩ = (⟨1, 10⟩ : Rq) := by decide
  have h2 : reqToStored ⟨3, 10⟩ = (⟨3, 10⟩ : Rq) := by decide
  have h3 : reqToStored ⟨1, 10⟩ + updateDiffJs ⟨1, 10⟩ ⟨3, 10⟩
      = (⟨299999999999999980, 1000000000000000000⟩ : Rq) := by decide
  refine ⟨?_, ?_, ?_⟩
  · rw [h1]; norm_num [Rq.toRat]
  · rw [h2]; norm_num [Rq.toRat]
  · rw [h3]; norm_num [Rq.toRat]

/-- Claim C6 counterexample: the account edit endpoint is claimed to leave
initial_balance and current_balance unchanged, but a request supplying
initial_balance rewrites it from 1500 to 999. -/
theorem claim_C6_counterexample :
    accountInitial dbC6 "acct_a" = some 1500 ∧
    (updateAccountOp "alice" "acct_a" reqInit999 dbC6).toOption.map
      (fun p => accountInitial p.1 "acct_a") = some (some 999) := by
  exact ⟨rfl, rfl⟩

/-- Claim C6 as amended: the account edit endpoint never changes any account's
current_balance, and it leaves initial_balance unchanged whenever the request
does not supply initial_balance. -/
theorem claim_C6_amended_frame (uid aid : String) (req : UpdateAccountReq)
    (db db2 : DBState) (acc2 : Account)
    (h : updateAccountOp uid aid req db = .ok (db2, acc2)) :
    (∀ x, accountBalance db2 x = accountBalance db x) ∧
    (req.initial_balance = none → ∀ x, accountInitial db2 x = accountInitial db x) := by
  unfold updateAccountOp at h
  cases hf : db.accounts.find? (fun a => a.id == aid && a.user_id == uid) with
  | none => rw [hf] at h; exact absurd h (by simp)
  | some a =>
    rw [hf] at h
    simp only [Except.ok.injEq, Prod.mk.injEq] at h
    obtain ⟨hdb, -⟩ := h
    subst hdb
    refine ⟨?_, ?_⟩
    · intro x
      exact map_find?_congr (fun (b : Account) => b.id == x)
        (fun (b : Account) => b.current_balance)
        (fun (b : Account) =>
          if b.id == aid && b.user_id == uid then coalesceAccount req b else b)
        (by intro b
            by_cases hb : (b.id == aid && b.user_id == uid) = true <;>
              simp [hb, coalesceAccount])
        db.accounts
    · intro hnone x
      exact map_find?_congr (fun (b : Account) => b.id == x)
        (fun (b : Account) => b.initial_balance)
        (fun (b : Account) =>
          if b.id == aid && b.user_id == uid then coalesceAccount req b else b)
        (by intro b
            by_cases hb : (b.id == aid && b.user_id == uid) = true <;>
              simp [hb, coalesceAccount, hnone])
        db.accounts

/-- Witness for the amended claim C6: renaming alice's account preserves both
balances. -/
theorem claim_C6_witness :
    accountBalance dbC6r "acct_a" = accountBalance dbC6 "acct_a" ∧
    accountInitial dbC6r "acct_a" = accountInitial dbC6 "acct_a" := by
  have h := claim_C6_amended_frame "alice" "acct_a" reqRename dbC6 dbC6r accC6r (by rfl)
  exact ⟨h.1 "acct_a", h.2 rfl "acct_a"⟩

/-- Claim C7: the categorizer returns the category of the first keyword rule,
in iteration order, whose keyword is a case-insensitive substring of the
description; with rules Electric→catA then Electricity→catB, the description
"Electricity bill" resolves to catA. -/
theorem claim_C7_first_match :
    (∀ (d : String) (rules : List KeywordRule),
      autoCategorize d rules = (rules.find? (kwMatches d)).map (fun r => r.category_id)) ∧
    autoCategorize "Electricity bill"
      [⟨"Electric", "catA"⟩, ⟨"Electricity", "catB"⟩] = some "catA" := by
  constructor
  · intro d rules
    induction rules with
    | nil => rfl
    | cons r rs ih =>
      cases h : kwMatches d r with
      | true => simp [autoCategorize, List.find?, h]
      | false => simpa [autoCategorize, List.find?, h] using ih
  · rfl

/-- The category stored by a successful create is `createdCategory`. -/
theorem createTransaction_category_eq (uid nid : String) (req : CreateTxnReq)
    (db db2 : DBState) (tx : Txn)
    (h : createTransaction uid nid req db = .ok (db2, tx)) :
    tx.category_id = createdCategory req.category_id req.description db.keyword_rules := by
  simp only [createTransaction] at h
  split at h
  · exact absurd h (by simp)
  · split at h
    · exact absurd h (by simp)
    · split at h
      · exact absurd h (by simp)
      · simp only [Except.ok.injEq, Prod.mk.injEq] at h
        obtain ⟨-, htx⟩ := h
        rw [← htx]

/-- An explicit nonempty category is stored unchanged: the rule loop is
bypassed. -/
theorem createdCategory_explicit (c : String) (d : Option String)
    (rules : List KeywordRule) (hc : c.isEmpty = false) :
    createdCategory (some c) d rules = some c := by
  unfold createdCategory jsOrNull
  simp [jsFalsy, hc]

/-- Without an explicit category, a falsy description or an unmatched rule set
stores null. -/
theorem createdCategory_unmatched (rc d : Option String) (rules : List KeywordRule)
    (h1 : jsFalsy rc = true)
    (h2 : jsFalsy d = true ∨ autoCategorize (d.getD "") rules = none) :
    createdCategory rc d rules = none := by
  unfold createdCategory jsOrNull
  cases hd : jsFalsy d with
  | true => simp [hd, h1]
  | false =>
    rcases h2 with h2 | h2
    · rw [hd] at h2; exact Bool.noConfusion h2
    · simp [hd, h1, h2]

/-- Claim C8: a created transaction stores category null when the caller
supplies no category and the description is empty/absent or matches no rule;
an explicit category bypasses matching and is stored unchanged. -/
theorem claim_C8_category_assignment (uid nid : String) (req : CreateTxnReq)
    (db db2 : DBState) (tx : Txn) :
    (∀ c : String, req.category_id = some c → c.isEmpty = false →
      createTransaction uid nid req db = .ok (db2, tx) → tx.category_id = some c) ∧
    (jsFalsy req.category_id = true →
      (jsFalsy req.description = true ∨
        autoCategorize (req.description.getD "") db.keyword_rules = none) →
      createTransaction uid nid req db = .ok (db2, tx) → tx.category_id = none) := by
  constructor
  · intro c hc hce h
    rw [createTransaction_category_eq uid nid req db db2 tx h, hc]
    exact createdCategory_explicit c req.description db.keyword_rules hce
  · intro h1 h2 h
    rw [createTransaction_category_eq uid nid req db db2 tx h]
    exact createdCategory_unmatched req.category_id req.description db.keyword_rules h1 h2

/-- Witness for claim C8: an explicit category "cat9" is stored unchanged even
though the description matches the Uber rule, and a no-category create whose
description matches no rule stores null. -/
theorem claim_C8_witness :
    (createTransaction "alice" "t9" reqCat9 dbW = .ok (dbWCat9, txCat9) ∧
      txCat9.category_id = some "cat9") ∧
    (createTransaction "alice" "t8" reqNoCat dbW = .ok (dbWNoCat, txNoCat) ∧
      txNoCat.category_id = none) := by
  have hA : createTransaction "alice" "t9" reqCat9 dbW = .ok (dbWCat9, txCat9) := by rfl
  have hB : createTransaction "alice" "t8" reqNoCat dbW = .ok (dbWNoCat, txNoCat) := by rfl
  refine ⟨⟨hA, ?_⟩, ⟨hB, ?_⟩⟩
  · exact (claim_C8_category_assignment "alice" "t9" reqCat9 dbW dbWCat9 txCat9).1
      "cat9" rfl rfl hA
  · exact (claim_C8_category_assignment "alice" "t8" reqNoCat dbW dbWNoCat txNoCat).2
      rfl (Or.inr rfl) hB

/-- Claim C9: DeleteTransaction answers NotFound when the transaction is absent
or not owned by the caller; otherwise (for a transaction whose account belongs
to its owner, as the data model prescribes) it removes the record and adjusts
that account's balance by -amount. -/
theorem claim_C9_delete (uid tid : String) (db : DBState) :
    (db.transactions.find? (fun t => t.id == tid && t.user_id == uid) = none →
      deleteTransaction uid tid db = .error ApiError.notFound) ∧
    (∀ (tx : Txn) (acc : Account),
      db.transactions.find? (fun t => t.id == tid && t.user_id == uid) = some tx →
      db.accounts.find? (fun a => a.id == tx.account_id) = some acc →
      acc.user_id = uid →
      ∃ db2, deleteTransaction uid tid db = .ok db2 ∧
        db2.transactions.find? (fun t => t.id == tid && t.user_id == uid) = none ∧
        accountBalance db2 tx.account_id = some (acc.current_balance + -tx.amount)) := by
  constructor
  · intro h
    unfold deleteTransaction
    rw [h]
  · intro tx acc hftx hfacc hown
    refine ⟨{ db with
        transactions := db.transactions.filter
          (fun (t : Txn) => !(t.id == tid && t.user_id == uid))
        accounts := addToBalance tx.account_id uid (-tx.amount) db.accounts }, ?_, ?_, ?_⟩
    · unfold deleteTransaction
      rw [hftx]
    · exact find?_filter_neg (fun t => t.id == tid && t.user_id == uid) db.transactions
    · have h1 := find?_map_apply (fun (a : Account) => a.id == tx.account_id)
        (fun (a : Account) => a.current_balance)
        (fun (a : Account) =>
          if a.id == tx.account_id && a.user_id == uid then
            { a with current_balance := a.current_balance + -tx.amount }
          else a)
        (by intro a
            by_cases hc : (a.id == tx.account_id && a.user_id == uid) = true <;>
              simp [hc])
        db.accounts acc hfacc
      have hid0 := List.find?_some hfacc
      have hid : (acc.id == tx.account_id) = true := hid0
      have h2 : (if acc.id == tx.account_id && acc.user_id == uid then
            { acc with current_balance := acc.current_balance + -tx.amount }
          else acc).current_balance = acc.current_balance + -tx.amount := by
        simp [hid, hown]
      exact h1.trans (congrArg some h2)

/-- Witness for claim C9: deleting the -200 transaction restores alice's
balance from 800 to 1000, and deleting an absent id answers NotFound. -/
theorem claim_C9_witness :
    (deleteTransaction "alice" "t1" dbC9).toOption.map
      (fun d => accountBalance d "acct_d") = some (some 1000) ∧
    deleteTransaction "alice" "nope" dbC9 = .error ApiError.notFound := by
  constructor
  · obtain ⟨db2, hok, hrm, hbal⟩ :=
      (claim_C9_delete "alice" "t1" dbC9).2 txC9 accC9 (by rfl) (by rfl) rfl
    have hbal2 : accountBalance db2 "acct_d" = some ((1000 : Rq)) := hbal
    rw [hok]
    show some (accountBalance db2 "acct_d") = some (some 1000)
    rw [hbal2]
  · exact (claim_C9_delete "alice" "nope" dbC9).1 (by rfl)

/-- Claim C10: an update can never reset a non-null category to null: the
COALESCE keeps the previous category when the request supplies none, and a
supplied category is itself non-null. -/
theorem claim_C10_category_preserved (uid tid : String) (req : UpdateTxnReq)
    (db db2 : DBState) (tx2 oldTx : Txn) (c : String)
    (hfind : db.transactions.find? (fun t => t.id == tid && t.user_id == uid) = some oldTx)
    (hcat : oldTx.category_id = some c)
    (h : updateTransaction uid tid req db = .ok (db2, tx2)) :
    tx2.category_id ≠ none := by
  simp only [updateTransaction, hfind] at h
  split at h
  · exact absurd h (by simp)
  · split at h
    · exact absurd h (by simp)
    · split at h <;>
      · simp only [Except.ok.injEq, Prod.mk.injEq] at h
        obtain ⟨-, htx⟩ := h
        rw [← htx]
        simp only [coalesceTxn]
        cases hrc : req.category_id <;> simp [hrc, hcat]

/-- Witness for claim C10: a date-only update keeps the stored category
"cat1". -/
theorem claim_C10_witness :
    updateTransaction "alice" "t1" reqDateOnly dbC10 = .ok (dbC10b, txC10b) ∧
    txC10b.category_id ≠ none := by
  have h : updateTransaction "alice" "t1" reqDateOnly dbC10 = .ok (dbC10b, txC10b) := by rfl
  exact ⟨h, claim_C10_category_preserved "alice" "t1" reqDateOnly dbC10 dbC10b
    txC10b txC10 "cat1" rfl rfl h⟩
